import Mathlib

/-!
Hubble device SDK: clock, key and initialisation state (`src/hubble.c`).

A shallow embedding of the SDK shell in `src/hubble.c`.  The three file-scope
statics become the fields of `State`; every C function becomes a function
`State → result × State`.  The external port calls (`hubble_uptime_get`,
`hubble_crypto_init`, `hubble_sat_port_init`) are not part of this translation
unit, so the value each call returns is an explicit argument.

`uint64_t` values are natural numbers below `2 ^ 64`; the two arithmetic
operations of the file wrap modulo `2 ^ 64`.
-/

namespace Hubble

/-! ## Data model -/

/-- A C data pointer, as its address; the null pointer is address `0`. -/
abbrev Ptr := Nat

/-- The null pointer. -/
def NULL : Ptr := 0

/-- The errno value `EINVAL` of `<errno.h>` (22 on Linux, newlib, Zephyr). -/
def EINVAL : Int := 22

/-- Modulus of `uint64_t` arithmetic. -/
def UINT64_MOD : Nat := 2 ^ 64

/-- Unsigned 64-bit addition `a + b`. -/
def u64_add (a b : Nat) : Nat := (a + b) % UINT64_MOD

/-- Unsigned 64-bit subtraction `a - b`: add the two's complement of `b`. -/
def u64_sub (a b : Nat) : Nat := (a + (UINT64_MOD - b % UINT64_MOD)) % UINT64_MOD

/-- The file-scope statics of `hubble.c` (lines 17-19). -/
structure State where
  unix_epoch_synced_ms : Nat
  unix_epoch_base_ms : Nat
  master_key : Ptr
  deriving DecidableEq, Repr

/-- Statics have static storage duration: all three start zeroed. -/
def State.zero : State :=
  { unix_epoch_synced_ms := 0, unix_epoch_base_ms := 0, master_key := NULL }

/-- Values returned by the external port functions during one `hubble_init`. -/
structure Port where
  hubble_crypto_init : Int
  hubble_uptime_get : Nat
  hubble_sat_port_init : Int
  deriving Repr

/-! ## Operations -/

/-- `int hubble_time_set(uint64_t unix_epoch_ms)`; `uptime` is what
`hubble_uptime_get()` returns during the call. -/
def hubble_time_set (unix_epoch_ms : Nat) (uptime : Nat) (s : State) : Int × State :=
  if unix_epoch_ms == 0 then
    (-EINVAL, s)
  else
    let s1 := { s with unix_epoch_synced_ms := unix_epoch_ms }
    let s2 := { s1 with unix_epoch_base_ms := u64_sub unix_epoch_ms uptime }
    (0, s2)

/-- `int hubble_key_set(const void *key)`. -/
def hubble_key_set (key : Ptr) (s : State) : Int × State :=
  if key == NULL then
    (-EINVAL, s)
  else
    (0, { s with master_key := key })

/-- `int hubble_init(uint64_t unix_epoch_ms, const void *key)`.
`sat_network` is the build option `CONFIG_HUBBLE_SAT_NETWORK`; logging has no
effect on the state and is left out. -/
def hubble_init (sat_network : Bool) (port : Port) (unix_epoch_ms : Nat) (key : Ptr)
    (s : State) : Int × State :=
  let ret := port.hubble_crypto_init
  if ret != 0 then
    (ret, s)
  else
    let (ret, s) := hubble_time_set unix_epoch_ms port.hubble_uptime_get s
    if ret != 0 then
      (ret, s)
    else
      let (ret, s) := hubble_key_set key s
      if ret != 0 then
        (ret, s)
      else if sat_network then
        let ret := port.hubble_sat_port_init
        if ret != 0 then
          (ret, s)
        else
          (0, s)
      else
        (0, s)

/-- `const void *hubble_internal_key_get(void)`. -/
def hubble_internal_key_get (s : State) : Ptr × State :=
  (s.master_key, s)

/-- `uint64_t hubble_internal_time_ms_get(void)`; `uptime` is what
`hubble_uptime_get()` returns during the call. -/
def hubble_internal_time_ms_get (uptime : Nat) (s : State) : Nat × State :=
  (u64_add s.unix_epoch_base_ms uptime, s)

/-- `uint64_t hubble_internal_time_last_synced_ms_get(void)`. -/
def hubble_internal_time_last_synced_ms_get (s : State) : Nat × State :=
  (s.unix_epoch_synced_ms, s)

/-- A finite sequence of `hubble_time_set` calls, each given as the pair
(argument, uptime read during the call); return codes are discarded. -/
def hubble_time_set_calls (calls : List (Nat × Nat)) (s : State) : State :=
  calls.foldl (fun st c => (hubble_time_set c.1 c.2 st).2) s

/-- The last call of a sequence whose argument was nonzero, if there is one. -/
def last_nonzero_call (calls : List (Nat × Nat)) : Option (Nat × Nat) :=
  (calls.filter (fun c => c.1 != 0)).getLast?

/-! ## Satellite registry (`include/hubble/sat/ephemeris.h`) -/

/-- Modelled from the spec: the registry state behind `hubble_sat_satellites_set`,
whose definition is not among the sources (only its declaration in
`ephemeris.h`).  The registry holds a reference to the caller's array and a
count, not a copy. -/
structure Registry where
  satellites : Ptr
  count : Nat
  deriving DecidableEq, Repr

/-- Modelled from the spec: `hubble_sat_satellites_set`, declared in
`ephemeris.h` and defined outside the sources.  It replaces the registry, and
fails with `-EINVAL` if `satellites` is NULL and `count` is greater than 0. -/
def hubble_sat_satellites_set (satellites : Ptr) (count : Nat) (r : Registry) :
    Int × Registry :=
  if satellites == NULL && decide (count > 0) then
    (-EINVAL, r)
  else
    (0, { satellites := satellites, count := count })

/-- Modelled from the spec: the satellites a later pass query
(`hubble_next_pass_get`, defined outside the sources) reads through the
registry: the first `count` entries of the referenced array, where `mem` gives
the caller's array stored at an address. -/
def registry_satellites {α : Type} (mem : Ptr → List α) (r : Registry) : List α :=
  if r.satellites == NULL then [] else (mem r.satellites).take r.count

/-! ## Arithmetic helpers -/

theorem u64_sub_int (a b : Nat) :
    ((u64_sub a b : Nat) : Int) = ((a : Int) - (b : Int)) % 2 ^ 64 := by
  unfold u64_sub UINT64_MOD
  omega

theorem u64_add_sub_int (x u0 u1 : Nat) :
    ((u64_add (u64_sub x u0) u1 : Nat) : Int)
      = ((x : Int) + ((u1 : Int) - (u0 : Int))) % 2 ^ 64 := by
  unfold u64_add u64_sub UINT64_MOD
  omega

theorem u64_add_sub_self (x u : Nat) (hx : x < 2 ^ 64) :
    u64_add (u64_sub x u) u = x := by
  unfold u64_add u64_sub UINT64_MOD
  omega

theorem u64_add_zero_left (u : Nat) (hu : u < 2 ^ 64) : u64_add 0 u = u := by
  unfold u64_add UINT64_MOD
  omega

theorem hubble_time_set_zero (u : Nat) (s : State) :
    hubble_time_set 0 u s = (-EINVAL, s) := by
  simp [hubble_time_set]

theorem hubble_time_set_nonzero (x u : Nat) (s : State) (hx : x ≠ 0) :
    hubble_time_set x u s
      = (0, { unix_epoch_synced_ms := x, unix_epoch_base_ms := u64_sub x u,
              master_key := s.master_key }) := by
  simp [hubble_time_set, hx]

theorem hubble_time_set_calls_snoc (l : List (Nat × Nat)) (c : Nat × Nat) (s : State) :
    hubble_time_set_calls (l ++ [c]) s
      = (hubble_time_set c.1 c.2 (hubble_time_set_calls l s)).2 := by
  simp [hubble_time_set_calls, List.foldl_append]

theorem hubble_time_set_calls_key (calls : List (Nat × Nat)) (s : State) :
    (hubble_time_set_calls calls s).master_key = s.master_key := by
  induction calls using List.reverseRecOn with
  | nil => rfl
  | append_singleton l c ih =>
    rw [hubble_time_set_calls_snoc]
    by_cases hc : c.1 = 0
    · rw [hc, hubble_time_set_zero]
      exact ih
    · rw [hubble_time_set_nonzero c.1 c.2 _ hc]
      exact ih

theorem hubble_time_set_calls_eq (calls : List (Nat × Nat)) (s : State) :
    hubble_time_set_calls calls s
      = match last_nonzero_call calls with
        | none => s
        | some c => { unix_epoch_synced_ms := c.1, unix_epoch_base_ms := u64_sub c.1 c.2,
                      master_key := s.master_key } := by
  induction calls using List.reverseRecOn with
  | nil => rfl
  | append_singleton l c ih =>
    rw [hubble_time_set_calls_snoc]
    by_cases hc : c.1 = 0
    · rw [hc, hubble_time_set_zero]
      have hl : last_nonzero_call (l ++ [c]) = last_nonzero_call l := by
        simp [last_nonzero_call, List.filter_append, hc]
      rw [hl]
      exact ih
    · rw [hubble_time_set_nonzero c.1 c.2 _ hc, hubble_time_set_calls_key]
      have hl : last_nonzero_call (l ++ [c]) = some c := by
        simp [last_nonzero_call, List.filter_append, hc]
      rw [hl]

/-! ## Clock model -/

/-- C1: `hubble_time_set(0)` returns `-EINVAL` and leaves the whole state as it
was, for every state and uptime; and after a successful `hubble_time_set(X)`
(`X ≠ 0`, uptime `u0`), a following `hubble_time_set(0)` leaves the last-synced
value equal to `X` and the current time still computed from the anchor of `X`,
that is `(X + (u2 - u0)) mod 2^64` at uptime `u2`. -/
theorem hubble_time_set_zero_keeps_anchor (s : State) (X u0 u1 u2 : Nat) (hX : X ≠ 0) :
    (∀ (t : State) (u : Nat), hubble_time_set 0 u t = (-EINVAL, t)) ∧
    (hubble_time_set X u0 s).1 = 0 ∧
    (hubble_time_set 0 u1 (hubble_time_set X u0 s).2).1 = -EINVAL ∧
    (hubble_internal_time_last_synced_ms_get
        (hubble_time_set 0 u1 (hubble_time_set X u0 s).2).2).1 = X ∧
    (hubble_time_set 0 u1 (hubble_time_set X u0 s).2).2.unix_epoch_base_ms
      = (hubble_time_set X u0 s).2.unix_epoch_base_ms ∧
    (((hubble_internal_time_ms_get u2
        (hubble_time_set 0 u1 (hubble_time_set X u0 s).2).2).1 : Nat) : Int)
      = ((X : Int) + ((u2 : Int) - (u0 : Int))) % 2 ^ 64 := by
  refine ⟨fun t u => hubble_time_set_zero u t, ?_, ?_, ?_, ?_, ?_⟩
  · rw [hubble_time_set_nonzero X u0 s hX]
  · rw [hubble_time_set_zero]
  · rw [hubble_time_set_zero, hubble_time_set_nonzero X u0 s hX]
    rfl
  · rw [hubble_time_set_zero]
  · rw [hubble_time_set_zero, hubble_time_set_nonzero X u0 s hX]
    exact u64_add_sub_int X u0 u2

/-- Instance of C1: set the clock to 1633072800000 at uptime 5000, then call
`hubble_time_set(0)` at uptime 6000 and read the time at uptime 7000. -/
theorem hubble_time_set_zero_keeps_anchor_witness :
    (∀ (t : State) (u : Nat), hubble_time_set 0 u t = (-EINVAL, t)) ∧
    (hubble_time_set 1633072800000 5000 State.zero).1 = 0 ∧
    (hubble_time_set 0 6000 (hubble_time_set 1633072800000 5000 State.zero).2).1 = -EINVAL ∧
    (hubble_internal_time_last_synced_ms_get
        (hubble_time_set 0 6000 (hubble_time_set 1633072800000 5000 State.zero).2).2).1
      = 1633072800000 ∧
    (hubble_time_set 0 6000
        (hubble_time_set 1633072800000 5000 State.zero).2).2.unix_epoch_base_ms
      = (hubble_time_set 1633072800000 5000 State.zero).2.unix_epoch_base_ms ∧
    (((hubble_internal_time_ms_get 7000
        (hubble_time_set 0 6000
          (hubble_time_set 1633072800000 5000 State.zero).2).2).1 : Nat) : Int)
      = (((1633072800000 : Nat) : Int) + (((7000 : Nat) : Int) - ((5000 : Nat) : Int)))
          % 2 ^ 64 :=
  hubble_time_set_zero_keeps_anchor State.zero 1633072800000 5000 6000 7000 (by decide)

/-- C2: for every `unix_ms ≠ 0`, every uptime `u` and every previous state,
`hubble_time_set(unix_ms)` returns 0 and afterwards
`unix_epoch_synced_ms = unix_ms` and
`unix_epoch_base_ms = (unix_ms - u) mod 2^64`. -/
theorem hubble_time_set_anchors (unix_ms u : Nat) (s : State) (h : unix_ms ≠ 0) :
    (hubble_time_set unix_ms u s).1 = 0 ∧
    (hubble_time_set unix_ms u s).2.unix_epoch_synced_ms = unix_ms ∧
    (((hubble_time_set unix_ms u s).2.unix_epoch_base_ms : Nat) : Int)
      = ((unix_ms : Int) - (u : Int)) % 2 ^ 64 := by
  rw [hubble_time_set_nonzero unix_ms u s h]
  exact ⟨rfl, rfl, u64_sub_int unix_ms u⟩

/-- Instance of C2 where the uptime exceeds the wall-clock value, so the base
wraps: `hubble_time_set(1000)` at uptime 5000 over a previously set clock. -/
theorem hubble_time_set_anchors_witness :
    (hubble_time_set 1000 5000 ⟨77, 88, 99⟩).1 = 0 ∧
    (hubble_time_set 1000 5000 ⟨77, 88, 99⟩).2.unix_epoch_synced_ms = 1000 ∧
    (((hubble_time_set 1000 5000 ⟨77, 88, 99⟩).2.unix_epoch_base_ms : Nat) : Int)
      = (((1000 : Nat) : Int) - ((5000 : Nat) : Int)) % 2 ^ 64 :=
  hubble_time_set_anchors 1000 5000 ⟨77, 88, 99⟩ (by decide)

/-- C3: for every `X ≠ 0` and all 64-bit uptimes `u0`, `u1`, calling
`hubble_time_set(X)` at uptime `u0` and then `hubble_internal_time_ms_get()` at
uptime `u1` gives `(X + (u1 - u0)) mod 2^64`, also when `u0 > X`; and a read at
the same uptime `u1 = u0` gives exactly `X`. -/
theorem hubble_time_ms_get_after_set (X u0 u1 : Nat) (s : State) (hX : X ≠ 0)
    (hXr : X < 2 ^ 64) :
    (((hubble_internal_time_ms_get u1 (hubble_time_set X u0 s).2).1 : Nat) : Int)
      = ((X : Int) + ((u1 : Int) - (u0 : Int))) % 2 ^ 64 ∧
    (hubble_internal_time_ms_get u1 (hubble_time_set X u0 s).2).1 < 2 ^ 64 ∧
    (u1 = u0 → (hubble_internal_time_ms_get u1 (hubble_time_set X u0 s).2).1 = X) := by
  rw [hubble_time_set_nonzero X u0 s hX]
  refine ⟨u64_add_sub_int X u0 u1, ?_, ?_⟩
  · show u64_add (u64_sub X u0) u1 < 2 ^ 64
    unfold u64_add u64_sub UINT64_MOD
    omega
  · intro h
    subst h
    exact u64_add_sub_self X u1 hXr

/-- Instance of C3 with `u0 > X` (the stored base wraps) and an uptime counter
that does not start at zero: `X = 1000`, `u0 = 2^64 - 1`, `u1 = 2^64 - 1`. -/
theorem hubble_time_ms_get_after_set_witness :
    (((hubble_internal_time_ms_get 18446744073709551615
        (hubble_time_set 1000 18446744073709551615 State.zero).2).1 : Nat) : Int)
      = (((1000 : Nat) : Int)
          + (((18446744073709551615 : Nat) : Int) - ((18446744073709551615 : Nat) : Int)))
          % 2 ^ 64 ∧
    (hubble_internal_time_ms_get 18446744073709551615
        (hubble_time_set 1000 18446744073709551615 State.zero).2).1 < 2 ^ 64 ∧
    ((18446744073709551615 : Nat) = 18446744073709551615 →
      (hubble_internal_time_ms_get 18446744073709551615
        (hubble_time_set 1000 18446744073709551615 State.zero).2).1 = 1000) :=
  hubble_time_ms_get_after_set 1000 18446744073709551615 18446744073709551615 State.zero
    (by decide) (by norm_num)

/-- C8: the clock is re-anchored, not accumulated.  After any finite sequence
of `hubble_time_set` calls from the zero-initialised state: if no call had a
nonzero argument, the last-synced value and the base are 0 and
`hubble_internal_time_ms_get()` returns the raw uptime; otherwise the
last-synced value is the argument `x` of the last call with a nonzero argument
and the base is `(x - u) mod 2^64` for the uptime `u` read during that call.
Two sequences with the same last nonzero call end in the same state. -/
theorem hubble_time_set_calls_reanchors (calls : List (Nat × Nat)) :
    (match last_nonzero_call calls with
      | none =>
        (hubble_internal_time_last_synced_ms_get
            (hubble_time_set_calls calls State.zero)).1 = 0 ∧
        (hubble_time_set_calls calls State.zero).unix_epoch_base_ms = 0 ∧
        ∀ u : Nat, u < 2 ^ 64 →
          (hubble_internal_time_ms_get u (hubble_time_set_calls calls State.zero)).1 = u
      | some c =>
        (hubble_internal_time_last_synced_ms_get
            (hubble_time_set_calls calls State.zero)).1 = c.1 ∧
        (((hubble_time_set_calls calls State.zero).unix_epoch_base_ms : Nat) : Int)
          = ((c.1 : Int) - (c.2 : Int)) % 2 ^ 64) ∧
    (∀ other : List (Nat × Nat), last_nonzero_call other = last_nonzero_call calls →
      hubble_time_set_calls other State.zero = hubble_time_set_calls calls State.zero) := by
  constructor
  · rw [hubble_time_set_calls_eq]
    cases last_nonzero_call calls with
    | none =>
      refine ⟨rfl, rfl, ?_⟩
      intro u hu
      exact u64_add_zero_left u hu
    | some c =>
      exact ⟨rfl, u64_sub_int c.1 c.2⟩
  · intro other h
    rw [hubble_time_set_calls_eq, hubble_time_set_calls_eq calls, h]

/-- Instance of C8: the calls `set(0)`, `set(1000)` at uptime 40, `set(0)`,
`set(2000)` at uptime 2500, `set(0)`: the clock is anchored to the fourth call
alone, with a base that wraps. -/
theorem hubble_time_set_calls_reanchors_witness :
    (hubble_internal_time_last_synced_ms_get
        (hubble_time_set_calls [(0, 10), (1000, 40), (0, 50), (2000, 2500), (0, 2600)]
          State.zero)).1 = 2000 ∧
    (((hubble_time_set_calls [(0, 10), (1000, 40), (0, 50), (2000, 2500), (0, 2600)]
        State.zero).unix_epoch_base_ms : Nat) : Int)
      = (((2000 : Nat) : Int) - ((2500 : Nat) : Int)) % 2 ^ 64 ∧
    hubble_time_set_calls [(2000, 2500)] State.zero
      = hubble_time_set_calls [(0, 10), (1000, 40), (0, 50), (2000, 2500), (0, 2600)]
          State.zero :=
  ⟨(hubble_time_set_calls_reanchors
      [(0, 10), (1000, 40), (0, 50), (2000, 2500), (0, 2600)]).1.1,
   (hubble_time_set_calls_reanchors
      [(0, 10), (1000, 40), (0, 50), (2000, 2500), (0, 2600)]).1.2,
   (hubble_time_set_calls_reanchors
      [(0, 10), (1000, 40), (0, 50), (2000, 2500), (0, 2600)]).2 [(2000, 2500)] rfl⟩

/-! ## Key and state frame -/

/-- C7: `hubble_key_set(key)` fails iff `key` is NULL.  For `key = NULL` it
returns the negative code `-EINVAL` and `hubble_internal_key_get()` still
returns the previously stored key; for `key ≠ NULL` it returns 0 and
`hubble_internal_key_get()` afterwards returns exactly `key`. -/
theorem hubble_key_set_fails_iff_null (key : Ptr) (s : State) :
    ((hubble_key_set key s).1 ≠ 0 ↔ key = NULL) ∧
    (key = NULL →
      (hubble_key_set key s).1 = -EINVAL ∧ (hubble_key_set key s).1 < 0 ∧
      (hubble_internal_key_get (hubble_key_set key s).2).1
        = (hubble_internal_key_get s).1) ∧
    (key ≠ NULL →
      (hubble_key_set key s).1 = 0 ∧
      (hubble_internal_key_get (hubble_key_set key s).2).1 = key) := by
  by_cases hk : key = NULL
  · subst hk
    simp [hubble_key_set, hubble_internal_key_get, EINVAL]
  · simp [hubble_key_set, hubble_internal_key_get, hk]

/-- C10: `hubble_key_set` leaves both clock variables unchanged,
`hubble_time_set` leaves `master_key` unchanged, and the three accessors leave
the whole state unchanged, so that calling an accessor twice (at the same
uptime) returns the same value. -/
theorem hubble_state_frame (s : State) (key : Ptr) (unix_epoch_ms u : Nat) :
    (hubble_key_set key s).2.unix_epoch_synced_ms = s.unix_epoch_synced_ms ∧
    (hubble_key_set key s).2.unix_epoch_base_ms = s.unix_epoch_base_ms ∧
    (hubble_time_set unix_epoch_ms u s).2.master_key = s.master_key ∧
    (hubble_internal_key_get s).2 = s ∧
    (hubble_internal_time_ms_get u s).2 = s ∧
    (hubble_internal_time_last_synced_ms_get s).2 = s ∧
    (hubble_internal_key_get (hubble_internal_key_get s).2).1
      = (hubble_internal_key_get s).1 ∧
    (hubble_internal_time_ms_get u (hubble_internal_time_ms_get u s).2).1
      = (hubble_internal_time_ms_get u s).1 ∧
    (hubble_internal_time_last_synced_ms_get
        (hubble_internal_time_last_synced_ms_get s).2).1
      = (hubble_internal_time_last_synced_ms_get s).1 := by
  refine ⟨?_, ?_, ?_, rfl, rfl, rfl, rfl, rfl, rfl⟩
  · unfold hubble_key_set
    split <;> rfl
  · unfold hubble_key_set
    split <;> rfl
  · unfold hubble_time_set
    split <;> rfl

/-- Instance of C7: a NULL key over a stored key `0x2000`, and the key `0x3000`
over the same state. -/
theorem hubble_key_set_fails_iff_null_witness :
    (hubble_key_set NULL ⟨5, 6, 0x2000⟩).1 = -EINVAL ∧
    (hubble_key_set NULL ⟨5, 6, 0x2000⟩).1 < 0 ∧
    (hubble_internal_key_get (hubble_key_set NULL ⟨5, 6, 0x2000⟩).2).1
      = (hubble_internal_key_get ⟨5, 6, 0x2000⟩).1 ∧
    (hubble_key_set 0x3000 ⟨5, 6, 0x2000⟩).1 = 0 ∧
    (hubble_internal_key_get (hubble_key_set 0x3000 ⟨5, 6, 0x2000⟩).2).1 = 0x3000 :=
  ⟨((hubble_key_set_fails_iff_null NULL ⟨5, 6, 0x2000⟩).2.1 rfl).1,
   ((hubble_key_set_fails_iff_null NULL ⟨5, 6, 0x2000⟩).2.1 rfl).2.1,
   ((hubble_key_set_fails_iff_null NULL ⟨5, 6, 0x2000⟩).2.1 rfl).2.2,
   ((hubble_key_set_fails_iff_null 0x3000 ⟨5, 6, 0x2000⟩).2.2 (by decide)).1,
   ((hubble_key_set_fails_iff_null 0x3000 ⟨5, 6, 0x2000⟩).2.2 (by decide)).2⟩

/-! ## Initialisation -/

/-- C6: `hubble_init` short-circuits.  If `hubble_crypto_init()` returns
`r ≠ 0`, `hubble_init` returns exactly `r` and leaves all three state variables
unchanged; if crypto succeeds and the clock step fails, `hubble_init` returns
the clock step's code and the master key is left unchanged. -/
theorem hubble_init_short_circuits (sat_network : Bool) (port : Port)
    (unix_epoch_ms : Nat) (key : Ptr) (s : State) :
    (port.hubble_crypto_init ≠ 0 →
      hubble_init sat_network port unix_epoch_ms key s = (port.hubble_crypto_init, s)) ∧
    (port.hubble_crypto_init = 0 →
      (hubble_time_set unix_epoch_ms port.hubble_uptime_get s).1 ≠ 0 →
      (hubble_init sat_network port unix_epoch_ms key s).1
        = (hubble_time_set unix_epoch_ms port.hubble_uptime_get s).1 ∧
      (hubble_init sat_network port unix_epoch_ms key s).2.master_key = s.master_key) := by
  constructor
  · intro hr
    simp [hubble_init, hr]
  · intro hc ht
    by_cases hz : unix_epoch_ms = 0
    · subst hz
      simp [hubble_init, hc, hubble_time_set_zero, EINVAL]
    · rw [hubble_time_set_nonzero unix_epoch_ms _ s hz] at ht
      exact absurd rfl ht

/-- Instance of C6: crypto failing with `-5` on a full set of arguments, and
crypto succeeding with the clock step failing (time argument 0). -/
theorem hubble_init_short_circuits_witness :
    hubble_init true ⟨-5, 100, 0⟩ 1633072800000 0x3000 ⟨5, 6, 0x2000⟩
      = (-5, ⟨5, 6, 0x2000⟩) ∧
    (hubble_init true ⟨0, 100, 0⟩ 0 0x3000 ⟨5, 6, 0x2000⟩).1
      = (hubble_time_set 0 100 ⟨5, 6, 0x2000⟩).1 ∧
    (hubble_init true ⟨0, 100, 0⟩ 0 0x3000 ⟨5, 6, 0x2000⟩).2.master_key = 0x2000 :=
  ⟨(hubble_init_short_circuits true ⟨-5, 100, 0⟩ 1633072800000 0x3000 ⟨5, 6, 0x2000⟩).1
      (by decide),
   (hubble_init_short_circuits true ⟨0, 100, 0⟩ 0 0x3000 ⟨5, 6, 0x2000⟩).2 rfl (by decide)⟩

/-- C4 (as the code behaves): with `hubble_crypto_init()` returning 0,
`hubble_init(0, key)` does not skip the clock step: for every key, state,
uptime and satellite configuration it returns `-EINVAL`, a nonzero code, and
stores nothing, so a non-NULL key is not recorded. -/
theorem hubble_init_zero_time_fails (sat_network : Bool) (uptime : Nat) (sat_ret : Int)
    (key : Ptr) (s : State) :
    hubble_init sat_network ⟨0, uptime, sat_ret⟩ 0 key s = (-EINVAL, s) ∧
    (hubble_init sat_network ⟨0, uptime, sat_ret⟩ 0 key s).1 ≠ 0 := by
  simp [hubble_init, hubble_time_set_zero, EINVAL]

/-- C5 (as the code behaves): with `hubble_crypto_init()` returning 0,
`hubble_init(unix_epoch_ms, NULL)` does not skip the key step: for every time
argument, state, uptime and satellite configuration it returns `-EINVAL`, a
nonzero code; the state is the one `hubble_time_set(unix_epoch_ms)` leaves and
the stored master key is unchanged. -/
theorem hubble_init_null_key_fails (sat_network : Bool) (uptime : Nat) (sat_ret : Int)
    (unix_epoch_ms : Nat) (s : State) :
    hubble_init sat_network ⟨0, uptime, sat_ret⟩ unix_epoch_ms NULL s
      = (-EINVAL, (hubble_time_set unix_epoch_ms uptime s).2) ∧
    (hubble_init sat_network ⟨0, uptime, sat_ret⟩ unix_epoch_ms NULL s).1 ≠ 0 ∧
    (hubble_init sat_network ⟨0, uptime, sat_ret⟩ unix_epoch_ms NULL s).2.master_key
      = s.master_key := by
  by_cases hz : unix_epoch_ms = 0
  · subst hz
    simp [hubble_init, hubble_time_set_zero, EINVAL]
  · simp [hubble_init, hubble_time_set_nonzero unix_epoch_ms uptime s hz, hubble_key_set,
      EINVAL]

/-! ## Satellite registry -/

/-- C9: for every `count > 0`, `hubble_sat_satellites_set(NULL, count)` returns
`-EINVAL` and leaves the registry as it was, so a later pass query reads the
same satellites as before the call; `hubble_sat_satellites_set(NULL, 0)`
returns 0 and leaves an empty registry. -/
theorem hubble_sat_satellites_set_null (α : Type) (mem : Ptr → List α) (r : Registry)
    (count : Nat) (h : 0 < count) :
    (hubble_sat_satellites_set NULL count r).1 = -EINVAL ∧
    (hubble_sat_satellites_set NULL count r).2 = r ∧
    registry_satellites mem (hubble_sat_satellites_set NULL count r).2
      = registry_satellites mem r ∧
    (hubble_sat_satellites_set NULL 0 r).1 = 0 ∧
    (hubble_sat_satellites_set NULL 0 r).2.count = 0 ∧
    registry_satellites mem (hubble_sat_satellites_set NULL 0 r).2 = [] := by
  have hfail : hubble_sat_satellites_set NULL count r = (-EINVAL, r) := by
    simp [hubble_sat_satellites_set, h]
  have hclear : hubble_sat_satellites_set NULL 0 r = (0, ⟨NULL, 0⟩) := by
    simp [hubble_sat_satellites_set]
  rw [hfail, hclear]
  exact ⟨rfl, rfl, rfl, rfl, rfl, rfl⟩

/-- Instance of C9: a registry of two satellites (NORAD ids 25544 and 43013)
held at address `0x1000`, then `hubble_sat_satellites_set(NULL, 5)`. -/
theorem hubble_sat_satellites_set_null_witness :
    (hubble_sat_satellites_set NULL 5 ⟨0x1000, 2⟩).1 = -EINVAL ∧
    (hubble_sat_satellites_set NULL 5 ⟨0x1000, 2⟩).2 = ⟨0x1000, 2⟩ ∧
    registry_satellites (fun _ => [25544, 43013, 7])
        (hubble_sat_satellites_set NULL 5 ⟨0x1000, 2⟩).2
      = registry_satellites (fun _ => [25544, 43013, 7]) ⟨0x1000, 2⟩ ∧
    (hubble_sat_satellites_set NULL 0 ⟨0x1000, 2⟩).1 = 0 ∧
    (hubble_sat_satellites_set NULL 0 ⟨0x1000, 2⟩).2.count = 0 ∧
    registry_satellites (fun _ => [25544, 43013, 7])
        (hubble_sat_satellites_set NULL 0 ⟨0x1000, 2⟩).2 = [] :=
  hubble_sat_satellites_set_null Nat (fun _ => [25544, 43013, 7]) ⟨0x1000, 2⟩ 5 (by decide)

end Hubble
